import Mathlib

/-!
# Verification of the x11vnc library facade (`src/libx11vnc.c`)

Shallow embedding of the lifecycle / configuration layer of `libx11vnc.c`.
C pointers to strings are modelled as `Option String` (NULL ↦ `none`);
`strdup` of a string yields a fresh allocation with equal contents, so at the
value level a duplicated string is the string itself.  C `int` is modelled as
`Int`.  The process-wide globals that the facade reads and writes
(`client_count`, `got_rfbport`, `use_dpy`, `auth_file`, `view_only`, `shared`,
`allow_list`, `shut_down`) are gathered in a `Globals` record that is threaded
explicitly through the operations that touch them.

Memory allocation: the only allocation-failure path any claim talks about is
the `copy_argv` deep copy inside `x11vnc_server_start`; that operation
therefore takes an explicit `allocOk : Bool` oracle deciding whether the
allocations of the copy succeed.  Elsewhere allocations are modelled as
succeeding.

Fields of `struct x11vnc_server` that no claim mentions and that carry no
lifecycle information (the pthread handle, the event-callback slots, the
floating-point statistics cache and its timestamps, the
`performance_warning_threshold` double) are omitted from the record; every
field the claims touch is present and is updated exactly where the C updates
it.
-/

/-- Error codes from `libx11vnc.h`. -/
def X11VNC_SUCCESS : Int := 0

def X11VNC_ERROR_INVALID_ARG : Int := -1

def X11VNC_ERROR_NO_MEMORY : Int := -2

def X11VNC_ERROR_ALREADY_RUNNING : Int := -3

def X11VNC_ERROR_NOT_RUNNING : Int := -4

/-- `x11vnc_simple_config_t` from `libx11vnc.h`.  `const char*` fields are
`Option String`; `int` fields are `Int`; `bool` fields are `Bool`. -/
structure SimpleConfig where
  display : Option String
  auth_file : Option String
  port : Int
  localhost_only : Bool
  ipv6 : Bool
  password : Option String
  password_file : Option String
  view_only : Bool
  allow_hosts : Option String
  shared : Bool
  forever : Bool
  once : Bool
  poll_interval_ms : Int
  use_shm : Bool
  use_xdamage : Bool
  wireframe : Bool
  show_cursor : Bool
  accept_bell : Bool
  accept_clipboard : Bool
  geometry : Option String
  clip : Option String
deriving Repr, DecidableEq

/-- The all-zero `x11vnc_simple_config_t`, as produced by `calloc` for the
`config` member of a freshly created server. -/
def SimpleConfig.zero : SimpleConfig :=
  { display := none, auth_file := none, port := 0, localhost_only := false
    ipv6 := false, password := none, password_file := none, view_only := false
    allow_hosts := none, shared := false, forever := false, once := false
    poll_interval_ms := 0, use_shm := false, use_xdamage := false
    wireframe := false, show_cursor := false, accept_bell := false
    accept_clipboard := false, geometry := none, clip := none }

/-- `x11vnc_config_init_defaults` from `libx11vnc.c`: `memset 0` then the
listed defaults. -/
def x11vnc_config_init_defaults : SimpleConfig :=
  { SimpleConfig.zero with
    display := some ":0", port := 5900, localhost_only := false
    ipv6 := false, view_only := false, shared := true, forever := false
    once := false, poll_interval_ms := 30, use_shm := true
    use_xdamage := true, wireframe := false, show_cursor := true
    accept_bell := true, accept_clipboard := true }

/-- The process-wide globals of the legacy engine that `libx11vnc.c` reads or
writes: connection count, resolved port, active display path, active
auth-file path, the hot-reloadable `view_only` / `shared` / `allow_list`
settings, and the engine shutdown flag.  `view_only` and `shared` are C
`int`s written as 0/1. -/
structure Globals where
  client_count : Int
  got_rfbport : Int
  use_dpy : Option String
  auth_file : Option String
  view_only : Int
  shared : Int
  allow_list : Option String
  shut_down : Int
deriving Repr, DecidableEq

/-- `global_state_backup_t` from `libx11vnc.c`. -/
structure GlobalStateBackup where
  saved_client_count : Int
  saved_got_rfbport : Int
  saved_use_dpy : Option String
  saved_auth_file : Option String
deriving Repr, DecidableEq

/-- `struct x11vnc_server` from `libx11vnc.c` (fields relevant to the
lifecycle / configuration layer; see the module comment for the omitted
fields). -/
structure Server where
  running : Bool
  initialized : Bool
  configured : Bool
  argc : Int
  argv : Option (List String)
  config : SimpleConfig
  config_valid : Bool
  performance_monitoring : Bool
  bandwidth_limit_kbps : Int
  saved_state : GlobalStateBackup
  should_exit : Bool
deriving Repr, DecidableEq

/-- `save_global_state`: snapshot `client_count`, `got_rfbport`,
`strdup(use_dpy)`, `strdup(auth_file)` into the backup record. -/
def save_global_state (g : Globals) : GlobalStateBackup :=
  { saved_client_count := g.client_count
    saved_got_rfbport := g.got_rfbport
    saved_use_dpy := g.use_dpy
    saved_auth_file := g.auth_file }

/-- `restore_global_state`: write the saved values back into the globals
(the C code frees the current `use_dpy` / `auth_file` first; at the value
level that is plain assignment). -/
def restore_global_state (s : Server) (g : Globals) : Globals :=
  { g with
    client_count := s.saved_state.saved_client_count
    got_rfbport := s.saved_state.saved_got_rfbport
    use_dpy := s.saved_state.saved_use_dpy
    auth_file := s.saved_state.saved_auth_file }

/-- `x11vnc_server_create`: `calloc` zero-initializes every field, then the
Phase-3 fields are set and `save_global_state` captures the snapshot.
(Returns `NULL` only on allocation failure, which is not modelled.) -/
def x11vnc_server_create (g : Globals) : Server :=
  { running := false, initialized := false, configured := false
    argc := 0, argv := none
    config := SimpleConfig.zero, config_valid := false
    performance_monitoring := false
    bandwidth_limit_kbps := 0
    saved_state := save_global_state g
    should_exit := false }

/-- `x11vnc_server_is_running` (non-NULL handle): returns the `running`
flag. -/
def x11vnc_server_is_running (s : Server) : Bool :=
  s.running

/-- `copy_argv`: deep copy of `argc` strings; fails (returns NULL) when an
allocation fails, freeing the partial copy.  The allocation outcome is the
explicit `allocOk` oracle. -/
def copy_argv (argv : List String) (allocOk : Bool) : Option (List String) :=
  if allocOk then some argv else none

/-- `x11vnc_server_start` (non-NULL handle).  `args = some l` with `l ≠ []`
models `argc > 0 && argv`; otherwise the default single-element vector is
synthesized.  Note the C assigns `server->argc` (and `server->argv`) before
checking whether the copy succeeded. -/
def x11vnc_server_start (s : Server) (args : Option (List String))
    (allocOk : Bool) : Int × Server :=
  if s.running then (X11VNC_ERROR_ALREADY_RUNNING, s)
  else
    match args with
    | some l =>
      if l.isEmpty then
        if allocOk then
          (X11VNC_SUCCESS,
            { s with argc := 1, argv := some ["x11vnc"]
                     should_exit := false, running := true })
        else (X11VNC_ERROR_NO_MEMORY, { s with argc := 1, argv := none })
      else
        match copy_argv l allocOk with
        | some copy =>
          (X11VNC_SUCCESS,
            { s with argc := (l.length : Int), argv := some copy
                     should_exit := false, running := true })
        | none =>
          (X11VNC_ERROR_NO_MEMORY,
            { s with argc := (l.length : Int), argv := none })
    | none =>
      if allocOk then
        (X11VNC_SUCCESS,
          { s with argc := 1, argv := some ["x11vnc"]
                   should_exit := false, running := true })
      else (X11VNC_ERROR_NO_MEMORY, { s with argc := 1, argv := none })

/-- `x11vnc_server_stop` (non-NULL handle): no-op unless running; otherwise
sets `should_exit` and the global `shut_down` flag.  `server_thread` is never
created anywhere in `libx11vnc.c`, so the join branch is a no-op.  The
`running` flag is NOT cleared here (only `x11vnc_server_run` clears it). -/
def x11vnc_server_stop (s : Server) (g : Globals) : Server × Globals :=
  if s.running then
    ({ s with should_exit := true }, { g with shut_down := 1 })
  else (s, g)

/-- `x11vnc_server_destroy` (non-NULL handle): stop, restore the global
snapshot, free owned memory, free the handle.  Only the resulting globals
survive. -/
def x11vnc_server_destroy (s : Server) (g : Globals) : Globals :=
  let sg := x11vnc_server_stop s g
  restore_global_state sg.1 sg.2

/-- `x11vnc_server_get_port` (non-NULL handle): `-1` when not running, else
the global `got_rfbport` if nonzero, else 5900. -/
def x11vnc_server_get_port (s : Server) (g : Globals) : Int :=
  if s.running then (if g.got_rfbport ≠ 0 then g.got_rfbport else 5900)
  else -1

/-- `x11vnc_server_get_client_count` (non-NULL handle): `-1` when not
running, else the global `client_count`. -/
def x11vnc_server_get_client_count (s : Server) (g : Globals) : Int :=
  if s.running then g.client_count else -1

/-- `config_copy_strings` (non-NULL arguments): `*dest = *src` followed by
`strdup` of every string field; `strdup` produces a fresh allocation with
equal contents, so the resulting value lists each string field of `src`
explicitly. -/
def config_copy_strings (src : SimpleConfig) : SimpleConfig :=
  { src with
    display := src.display
    auth_file := src.auth_file
    password := src.password
    password_file := src.password_file
    allow_hosts := src.allow_hosts
    geometry := src.geometry
    clip := src.clip }

/-- `x11vnc_server_configure` (non-NULL handle and config): fails with
`ALREADY_RUNNING` when running, else deep-copies the configuration and sets
`config_valid` and `configured`.  (The emitted event carries no state.) -/
def x11vnc_server_configure (s : Server) (c : SimpleConfig) : Int × Server :=
  if s.running then (X11VNC_ERROR_ALREADY_RUNNING, s)
  else
    (X11VNC_SUCCESS,
      { s with config := config_copy_strings c
               config_valid := true, configured := true })

/-- `x11vnc_server_get_config` (non-NULL handle and out-pointer): fails with
`INVALID_ARG` when no valid configuration is stored, else deep-copies the
stored configuration into the caller's record. -/
def x11vnc_server_get_config (s : Server) : Int × Option SimpleConfig :=
  if s.config_valid then (X11VNC_SUCCESS, some (config_copy_strings s.config))
  else (X11VNC_ERROR_INVALID_ARG, none)

/-- `config_to_argv` (non-NULL arguments): converts the configuration to the
legacy argument vector in source-emission order.  `snprintf("%d", n)` is
`toString n` (both branches that use it only ever print values the source
guards, or plain ints, for which the decimal rendering agrees). -/
def config_to_argv (config : SimpleConfig) : List String :=
  ["x11vnc"]
  ++ (match config.display with | some d => ["-display", d] | none => [])
  ++ (match config.auth_file with | some a => ["-auth", a] | none => [])
  ++ (if config.port ≠ 5900 ∧ 0 < config.port then
        ["-rfbport", toString config.port] else [])
  ++ (if config.localhost_only then ["-localhost"] else [])
  ++ (if config.ipv6 then ["-6"] else [])
  ++ (match config.password, config.password_file with
      | some p, _ => ["-passwd", p]
      | none, some pf => ["-passwdfile", pf]
      | none, none => ["-nopw"])
  ++ (if config.view_only then ["-viewonly"] else [])
  ++ (match config.allow_hosts with | some a => ["-allow", a] | none => [])
  ++ (if config.shared then ["-shared"] else ["-noshared"])
  ++ (if config.forever then ["-forever"] else [])
  ++ (if config.once then ["-once"] else [])
  ++ (if config.poll_interval_ms ≠ 30 then
        ["-wait", toString config.poll_interval_ms] else [])
  ++ (if config.use_shm then [] else ["-noshm"])
  ++ (if config.use_xdamage then [] else ["-noxdamage"])
  ++ (if config.wireframe then ["-wireframe"] else [])
  ++ (if config.show_cursor then [] else ["-nocursor"])
  ++ (if config.accept_bell then [] else ["-nobell"])
  ++ (match config.geometry with | some geo => ["-geometry", geo] | none => [])
  ++ (match config.clip with | some cl => ["-clip", cl] | none => [])
  ++ ["-quiet"]

/-- `x11vnc_server_start_configured` (non-NULL handle): requires a stored
valid configuration and not running; converts the configuration to an
argument vector, stores it, and transitions to running. -/
def x11vnc_server_start_configured (s : Server) : Int × Server :=
  if ¬ s.configured ∨ ¬ s.config_valid then (X11VNC_ERROR_INVALID_ARG, s)
  else if s.running then (X11VNC_ERROR_ALREADY_RUNNING, s)
  else
    let argv := config_to_argv s.config
    (X11VNC_SUCCESS,
      { s with argc := (argv.length : Int), argv := some argv
               should_exit := false, running := true })

/-- `apply_config_to_globals` (non-NULL config): pushes the hot-reloadable
subset to the engine globals; string-valued globals are replaced only when
the corresponding configuration field is present. -/
def apply_config_to_globals (c : SimpleConfig) (g : Globals) : Globals :=
  { g with
    view_only := if c.view_only then 1 else 0
    shared := if c.shared then 1 else 0
    allow_list := match c.allow_hosts with
      | some a => some a
      | none => g.allow_list
    use_dpy := match c.display with
      | some d => some d
      | none => g.use_dpy
    auth_file := match c.auth_file with
      | some a => some a
      | none => g.auth_file }

/-- The restart comparison of `x11vnc_server_update_config`:
`strcmp(config->display ?: "", server->config.display ?: "") != 0` (an
absent display compares as the empty string), or any of port,
localhost-only, IPv6 differing. -/
def restart_comparison (c stored : SimpleConfig) : Bool :=
  (c.display.getD "" != stored.display.getD "") ||
  (c.port != stored.port) ||
  (c.localhost_only != stored.localhost_only) ||
  (c.ipv6 != stored.ipv6)

/-- `x11vnc_server_update_config` (non-NULL handle and config).
`wantRestart` models whether the `restart_needed` out-pointer is non-NULL;
the fourth component is the value, if any, written through it.  Always
overwrites the stored configuration; when running, additionally pushes the
hot-reloadable subset to the globals. -/
def x11vnc_server_update_config (s : Server) (c : SimpleConfig)
    (wantRestart : Bool) (g : Globals) :
    Int × Server × Globals × Option Bool :=
  let restart : Option Bool :=
    if wantRestart then
      some (s.config_valid && restart_comparison c s.config)
    else none
  let s' := { s with config := config_copy_strings c, config_valid := true }
  let g' := if s.running then apply_config_to_globals c g else g
  (X11VNC_SUCCESS, s', g', restart)

/-- `x11vnc_server_set_bandwidth_limit` (non-NULL handle): rejects negative
limits, otherwise stores the limit.  The source contains no check of the
`running` flag in this operation. -/
def x11vnc_server_set_bandwidth_limit (s : Server) (k : Int) : Int × Server :=
  if k < 0 then (X11VNC_ERROR_INVALID_ARG, s)
  else (X11VNC_SUCCESS, { s with bandwidth_limit_kbps := k })

/-! ## Spec-side definitions

`spec_canonical_argv` below is NOT a transcription of the source: it follows
the wording of the specification's canonical emission order (§4.2), section
by section, to be compared against `config_to_argv`. -/

/-- A flag taking a value: a populated optional string field produces the
flag followed by the value; an absent field produces no entries. -/
def spec_emit_valued (flag : String) : Option String → List String
  | some v => [flag, v]
  | none => []

/-- A boolean flag emitted when the condition holds. -/
def spec_emit_flag (cond : Bool) (flag : String) : List String :=
  if cond then [flag] else []

/-- Modelled from the spec (§4.2): "exactly one of {password, password-file,
no password} in that priority order". -/
def spec_password_section (c : SimpleConfig) : List String :=
  match c.password with
  | some p => ["-passwd", p]
  | none =>
    match c.password_file with
    | some pf => ["-passwdfile", pf]
    | none => ["-nopw"]

/-- Modelled from the spec (§4.2): the full canonical emission order —
program name; display; auth file; port (only if ≠ the default value and
> 0); localhost-only flag; IPv6 flag; the password section; view-only flag;
allow-list; exactly one of {shared, not-shared}; forever flag; once flag;
poll interval (only if ≠ default); shared-memory opt-out (only if
disabled); damage-extension opt-out (only if disabled); wireframe flag;
cursor opt-out (only if disabled); bell opt-out (only if disabled);
geometry; clip region; a trailing quiet flag unconditionally appended. -/
def spec_canonical_argv (c : SimpleConfig) : List String :=
  List.flatten
    [ ["x11vnc"]
    , spec_emit_valued "-display" c.display
    , spec_emit_valued "-auth" c.auth_file
    , if c.port ≠ 5900 ∧ 0 < c.port then ["-rfbport", toString c.port] else []
    , spec_emit_flag c.localhost_only "-localhost"
    , spec_emit_flag c.ipv6 "-6"
    , spec_password_section c
    , spec_emit_flag c.view_only "-viewonly"
    , spec_emit_valued "-allow" c.allow_hosts
    , if c.shared then ["-shared"] else ["-noshared"]
    , spec_emit_flag c.forever "-forever"
    , spec_emit_flag c.once "-once"
    , if c.poll_interval_ms ≠ 30 then ["-wait", toString c.poll_interval_ms]
      else []
    , spec_emit_flag (! c.use_shm) "-noshm"
    , spec_emit_flag (! c.use_xdamage) "-noxdamage"
    , spec_emit_flag c.wireframe "-wireframe"
    , spec_emit_flag (! c.show_cursor) "-nocursor"
    , spec_emit_flag (! c.accept_bell) "-nobell"
    , spec_emit_valued "-geometry" c.geometry
    , spec_emit_valued "-clip" c.clip
    , ["-quiet"] ]

/-! ## Operation traces

For the global round-trip property the intervening operations between
`create` and `destroy` are an arbitrary list of facade calls acting on the
pair (handle, globals). -/

/-- One intervening facade call between `create` and `destroy`. -/
inductive Op where
  | configure (c : SimpleConfig)
  | startArgs (args : Option (List String)) (allocOk : Bool)
  | startConfigured
  | stop
  | updateConfig (c : SimpleConfig) (wantRestart : Bool)
deriving Repr

/-- Apply one facade call to the (handle, globals) pair, discarding result
codes. -/
def applyOp : Op → Server × Globals → Server × Globals
  | .configure c, (s, g) => ((x11vnc_server_configure s c).2, g)
  | .startArgs a ok, (s, g) => ((x11vnc_server_start s a ok).2, g)
  | .startConfigured, (s, g) => ((x11vnc_server_start_configured s).2, g)
  | .stop, (s, g) => x11vnc_server_stop s g
  | .updateConfig c w, (s, g) =>
    let r := x11vnc_server_update_config s c w g
    (r.2.1, r.2.2.1)

/-- Run a list of facade calls left to right. -/
def runOps (ops : List Op) (sg : Server × Globals) : Server × Globals :=
  ops.foldl (fun sg op => applyOp op sg) sg

/-! ## Concrete inputs used by counterexamples and witnesses. -/

/-- A concrete pre-existing global state (all counters zero, no strings,
engine not shutting down). -/
def g0 : Globals :=
  { client_count := 0, got_rfbport := 0, use_dpy := none, auth_file := none
    view_only := 0, shared := 0, allow_list := none, shut_down := 0 }

/-- The configuration of the spec's walk-through scenario:
`{port:5901, view_only:true, shared:true, once:true}` on top of the
defaults. -/
def scenario_config : SimpleConfig :=
  { x11vnc_config_init_defaults with
    port := 5901, view_only := true, shared := true, once := true }

/-! ## Helper lemmas -/

/-- At the value level the deep string copy is the identity: `*dest = *src`
followed by duplicating every string field reproduces `src` exactly. -/
theorem config_copy_strings_eq (c : SimpleConfig) : config_copy_strings c = c :=
  rfl

/-! ## Claims -/

/-- C8: for every freshly created handle on which `configure` has never been
called, `start_configured()` fails with `InvalidArgument` and leaves the
handle not running. -/
theorem claim_C8 (g : Globals) :
    x11vnc_server_start_configured (x11vnc_server_create g) =
      (X11VNC_ERROR_INVALID_ARG, x11vnc_server_create g) ∧
    x11vnc_server_is_running (x11vnc_server_create g) = false := by
  constructor
  · simp [x11vnc_server_start_configured, x11vnc_server_create]
  · rfl

/-- C7: after a successful `configure(C)`, `get_configuration()` succeeds
and returns a configuration equal to `C` in all fields.  (The returned value
is produced by `config_copy_strings`, which duplicates every string field,
so it shares no storage with the handle; in the value semantics this
independence is exactly the fact that the result is a plain value equal to
`C`.) -/
theorem claim_C7 (s : Server) (c : SimpleConfig) (h : s.running = false) :
    (x11vnc_server_configure s c).1 = X11VNC_SUCCESS ∧
    x11vnc_server_get_config (x11vnc_server_configure s c).2 =
      (X11VNC_SUCCESS, some c) := by
  simp [x11vnc_server_configure, x11vnc_server_get_config, h,
    config_copy_strings_eq]

/-- Witness for C7 at a concrete handle and configuration. -/
theorem claim_C7_witness :
    (x11vnc_server_create g0).running = false ∧
    (x11vnc_server_configure (x11vnc_server_create g0)
        x11vnc_config_init_defaults).1 = X11VNC_SUCCESS ∧
    x11vnc_server_get_config
        (x11vnc_server_configure (x11vnc_server_create g0)
          x11vnc_config_init_defaults).2 =
      (X11VNC_SUCCESS, some x11vnc_config_init_defaults) := by
  refine ⟨rfl, ?_⟩
  exact claim_C7 (x11vnc_server_create g0) x11vnc_config_init_defaults rfl

/-- C10: on a handle with no stored configuration, `update_configuration`
with a non-null `restart_needed` output sets it to `false` regardless of the
supplied configuration, stores that configuration, and returns success. -/
theorem claim_C10 (s : Server) (c : SimpleConfig) (g : Globals)
    (h : s.config_valid = false) :
    (x11vnc_server_update_config s c true g).1 = X11VNC_SUCCESS ∧
    (x11vnc_server_update_config s c true g).2.2.2 = some false ∧
    (x11vnc_server_update_config s c true g).2.1.config = c ∧
    (x11vnc_server_update_config s c true g).2.1.config_valid = true := by
  simp [x11vnc_server_update_config, h, config_copy_strings_eq]

/-- Witness for C10 at a concrete fresh handle. -/
theorem claim_C10_witness :
    (x11vnc_server_create g0).config_valid = false ∧
    (x11vnc_server_update_config (x11vnc_server_create g0) scenario_config
        true g0).1 = X11VNC_SUCCESS ∧
    (x11vnc_server_update_config (x11vnc_server_create g0) scenario_config
        true g0).2.2.2 = some false ∧
    (x11vnc_server_update_config (x11vnc_server_create g0) scenario_config
        true g0).2.1.config = scenario_config ∧
    (x11vnc_server_update_config (x11vnc_server_create g0) scenario_config
        true g0).2.1.config_valid = true := by
  refine ⟨rfl, ?_⟩
  have h := claim_C10 (x11vnc_server_create g0) scenario_config g0 rfl
  exact ⟨h.1, h.2.1, h.2.2.1, h.2.2.2⟩

/-- C9 counterexample: on a freshly created (hence not running) handle,
`x11vnc_server_set_bandwidth_limit` succeeds instead of failing with
`NotRunning` — the source contains no check of the `running` flag. -/
theorem claim_C9_counterexample :
    x11vnc_server_is_running (x11vnc_server_create g0) = false ∧
    (x11vnc_server_set_bandwidth_limit (x11vnc_server_create g0) 100).1 =
      X11VNC_SUCCESS ∧
    (x11vnc_server_set_bandwidth_limit (x11vnc_server_create g0) 100).1 ≠
      X11VNC_ERROR_NOT_RUNNING := by
  decide

/-- C9 (amended): `set_bandwidth_limit` does not enforce the `Running`
precondition: for every handle — running or not — and every non-negative
limit it succeeds and stores the limit; only a negative limit is rejected
(with `InvalidArgument`). -/
theorem claim_C9 (s : Server) (k : Int) (h : 0 ≤ k) :
    x11vnc_server_set_bandwidth_limit s k =
      (X11VNC_SUCCESS, { s with bandwidth_limit_kbps := k }) := by
  simp [x11vnc_server_set_bandwidth_limit, not_lt.2 h]

/-- Witness for the amended C9 at a concrete non-running handle. -/
theorem claim_C9_witness :
    (0 : Int) ≤ 50 ∧
    x11vnc_server_set_bandwidth_limit (x11vnc_server_create g0) 50 =
      (X11VNC_SUCCESS,
        { x11vnc_server_create g0 with bandwidth_limit_kbps := 50 }) :=
  ⟨by decide, claim_C9 (x11vnc_server_create g0) 50 (by decide)⟩

/-- C2 counterexample: a fresh handle has `argc = 0`; a failing deep copy in
`x11vnc_server_start` returns `OutOfMemory` but has already set the stored
argument count to the supplied count (2), so the handle is mutated. -/
theorem claim_C2_counterexample :
    (x11vnc_server_start (x11vnc_server_create g0)
        (some ["x11vnc", "-forever"]) false).1 = X11VNC_ERROR_NO_MEMORY ∧
    (x11vnc_server_start (x11vnc_server_create g0)
        (some ["x11vnc", "-forever"]) false).2.argc ≠
      (x11vnc_server_create g0).argc := by
  decide

/-- C2 (amended): when the deep copy of a non-empty argument list fails,
`x11vnc_server_start` on a non-running handle returns `OutOfMemory` having
set exactly the stored argument count (to the supplied count) and the
argument vector (to null); every other field of the handle is unchanged. -/
theorem claim_C2 (s : Server) (l : List String) (h : s.running = false)
    (hl : l ≠ []) :
    x11vnc_server_start s (some l) false =
      (X11VNC_ERROR_NO_MEMORY,
        { s with argc := (l.length : Int), argv := none }) := by
  simp [x11vnc_server_start, copy_argv, h, hl]

/-- Witness for the amended C2 at a concrete handle and argument list. -/
theorem claim_C2_witness :
    (x11vnc_server_create g0).running = false ∧
    (["x11vnc", "-forever"] : List String) ≠ [] ∧
    x11vnc_server_start (x11vnc_server_create g0)
        (some ["x11vnc", "-forever"]) false =
      (X11VNC_ERROR_NO_MEMORY,
        { x11vnc_server_create g0 with argc := 2, argv := none }) :=
  ⟨rfl, by decide,
    claim_C2 (x11vnc_server_create g0) ["x11vnc", "-forever"] rfl (by decide)⟩

/-- C1 counterexample: in the spec's own scenario (`create` → `configure`
with port 5901 → `start_configured` succeeds → `stop`), `is_running()`
still returns `true` after `stop()`: `x11vnc_server_stop` only sets
`should_exit` and the global `shut_down` flag and never clears `running`
(only `x11vnc_server_run` does, and it is never invoked here). -/
theorem claim_C1_counterexample :
    (x11vnc_server_start_configured
        (x11vnc_server_configure (x11vnc_server_create g0)
          scenario_config).2).1 = X11VNC_SUCCESS ∧
    x11vnc_server_is_running
        (x11vnc_server_start_configured
          (x11vnc_server_configure (x11vnc_server_create g0)
            scenario_config).2).2 = true ∧
    x11vnc_server_is_running
        (x11vnc_server_stop
          (x11vnc_server_start_configured
            (x11vnc_server_configure (x11vnc_server_create g0)
              scenario_config).2).2 g0).1 = true := by
  decide

/-- C1 (amended): after `create` → `configure(C)` → successful
`start_configured()`, `is_running()` returns `true`; the subsequent `stop()`
only records the shutdown request (`should_exit := true` and the engine's
global `shut_down := 1`) and leaves `is_running()` returning `true` — the
`running` flag is cleared only when the blocking `run()` loop returns. -/
theorem claim_C1 (g : Globals) (c : SimpleConfig) :
    (x11vnc_server_start_configured
        (x11vnc_server_configure (x11vnc_server_create g) c).2).1 =
      X11VNC_SUCCESS ∧
    x11vnc_server_is_running
        (x11vnc_server_start_configured
          (x11vnc_server_configure (x11vnc_server_create g) c).2).2 = true ∧
    (x11vnc_server_stop
        (x11vnc_server_start_configured
          (x11vnc_server_configure (x11vnc_server_create g) c).2).2
        g).1.should_exit = true ∧
    (x11vnc_server_stop
        (x11vnc_server_start_configured
          (x11vnc_server_configure (x11vnc_server_create g) c).2).2
        g).2.shut_down = 1 ∧
    x11vnc_server_is_running
        (x11vnc_server_stop
          (x11vnc_server_start_configured
            (x11vnc_server_configure (x11vnc_server_create g) c).2).2
          g).1 = true := by
  simp [x11vnc_server_create, x11vnc_server_configure,
    x11vnc_server_start_configured, x11vnc_server_stop,
    x11vnc_server_is_running]

/-- C5 counterexample: with pre-existing globals `g0` (whose `got_rfbport`
is 0), the scenario `create` → `configure({port:5901, …})` →
`start_configured()` succeeds, but `get_port()` returns 5900, not 5901:
`x11vnc_server_get_port` reads the engine global `got_rfbport`, which the
facade's start path never writes. -/
theorem claim_C5_counterexample :
    (x11vnc_server_start_configured
        (x11vnc_server_configure (x11vnc_server_create g0)
          scenario_config).2).1 = X11VNC_SUCCESS ∧
    x11vnc_server_get_port
        (x11vnc_server_start_configured
          (x11vnc_server_configure (x11vnc_server_create g0)
            scenario_config).2).2 g0 = 5900 ∧
    x11vnc_server_get_port
        (x11vnc_server_start_configured
          (x11vnc_server_configure (x11vnc_server_create g0)
            scenario_config).2).2 g0 ≠ 5901 := by
  decide

/-- C5 (amended): after `create()` → `configure(C)` (for any `C`, including
one with port 5901) → successful `start_configured()`, `get_port()` returns
the engine global `got_rfbport` when it is nonzero and 5900 otherwise; the
configured port is not consulted, and the facade start path leaves the
globals unchanged, so 5901 is returned only if `got_rfbport` already held
5901. -/
theorem claim_C5 (g : Globals) (c : SimpleConfig) :
    (x11vnc_server_start_configured
        (x11vnc_server_configure (x11vnc_server_create g) c).2).1 =
      X11VNC_SUCCESS ∧
    x11vnc_server_get_port
        (x11vnc_server_start_configured
          (x11vnc_server_configure (x11vnc_server_create g) c).2).2 g =
      (if g.got_rfbport ≠ 0 then g.got_rfbport else 5900) := by
  simp [x11vnc_server_create, x11vnc_server_configure,
    x11vnc_server_start_configured, x11vnc_server_get_port]

/-- C3 counterexample: the claim's "differs" is falsified by NULL vs "".
With a stored configuration whose display is the empty string and a new
configuration whose display is absent (NULL), the display fields differ,
yet `update_configuration` reports `restart_needed = false`, because the
source compares `config->display ?: ""` with `server->config.display ?: ""`
and `strcmp("", "") == 0`. -/
theorem claim_C3_counterexample :
    (({ x11vnc_config_init_defaults with display := none } :
        SimpleConfig).display ≠
      (Server.config
        (x11vnc_server_configure (x11vnc_server_create g0)
          { x11vnc_config_init_defaults with display := some "" }).2).display) ∧
    (x11vnc_server_update_config
        (x11vnc_server_configure (x11vnc_server_create g0)
          { x11vnc_config_init_defaults with display := some "" }).2
        { x11vnc_config_init_defaults with display := none }
        true g0).2.2.2 = some false := by
  decide

/-- C3 (amended): on a handle that already holds a stored configuration,
`update_configuration` with a non-null `restart_needed` output sets
`restart_needed = true` if and only if the port, localhost-only, or IPv6
fields of `C` differ from the stored configuration, or the display fields
differ when an absent display is compared as the empty string; the stored
configuration is overwritten with `C` in every case (and the operation
returns success). -/
theorem claim_C3 (s : Server) (c : SimpleConfig) (g : Globals)
    (h : s.config_valid = true) :
    (x11vnc_server_update_config s c true g).1 = X11VNC_SUCCESS ∧
    ((x11vnc_server_update_config s c true g).2.2.2 = some true ↔
      (c.display.getD "" ≠ s.config.display.getD "" ∨
       c.port ≠ s.config.port ∨
       c.localhost_only ≠ s.config.localhost_only ∨
       c.ipv6 ≠ s.config.ipv6)) ∧
    (x11vnc_server_update_config s c true g).2.1.config = c ∧
    (x11vnc_server_update_config s c true g).2.1.config_valid = true := by
  simp [x11vnc_server_update_config, restart_comparison, h,
    config_copy_strings_eq, or_assoc]

/-- Witness for the amended C3: a view-only-only change on a configured
handle yields `restart_needed = false`. -/
theorem claim_C3_witness :
    ((x11vnc_server_configure (x11vnc_server_create g0)
        x11vnc_config_init_defaults).2.config_valid = true) ∧
    ((x11vnc_server_update_config
        (x11vnc_server_configure (x11vnc_server_create g0)
          x11vnc_config_init_defaults).2
        { x11vnc_config_init_defaults with view_only := true }
        true g0).2.2.2 = some true ↔
      (({ x11vnc_config_init_defaults with view_only := true } :
          SimpleConfig).display.getD "" ≠
        (x11vnc_server_configure (x11vnc_server_create g0)
            x11vnc_config_init_defaults).2.config.display.getD "" ∨
       ({ x11vnc_config_init_defaults with view_only := true } :
          SimpleConfig).port ≠
        (x11vnc_server_configure (x11vnc_server_create g0)
            x11vnc_config_init_defaults).2.config.port ∨
       ({ x11vnc_config_init_defaults with view_only := true } :
          SimpleConfig).localhost_only ≠
        (x11vnc_server_configure (x11vnc_server_create g0)
            x11vnc_config_init_defaults).2.config.localhost_only ∨
       ({ x11vnc_config_init_defaults with view_only := true } :
          SimpleConfig).ipv6 ≠
        (x11vnc_server_configure (x11vnc_server_create g0)
            x11vnc_config_init_defaults).2.config.ipv6)) := by
  refine ⟨rfl, ?_⟩
  exact (claim_C3
    (x11vnc_server_configure (x11vnc_server_create g0)
      x11vnc_config_init_defaults).2
    { x11vnc_config_init_defaults with view_only := true } g0 rfl).2.1

/-- C4: `config_to_argv` emits exactly the spec's canonical order: for every
configuration the source translation and the spec-side canonical emission
agree. -/
theorem claim_C4 (c : SimpleConfig) :
    config_to_argv c = spec_canonical_argv c := by
  simp only [spec_canonical_argv, List.flatten_cons, List.flatten_nil,
    List.append_nil, List.append_assoc, config_to_argv]
  refine congrArg₂ (· ++ ·) rfl ?_
  refine congrArg₂ (· ++ ·) (by cases c.display <;> rfl) ?_
  refine congrArg₂ (· ++ ·) (by cases c.auth_file <;> rfl) ?_
  refine congrArg₂ (· ++ ·) rfl ?_
  refine congrArg₂ (· ++ ·) rfl ?_
  refine congrArg₂ (· ++ ·) rfl ?_
  refine congrArg₂ (· ++ ·)
    (by
      simp only [spec_password_section]
      cases c.password <;> cases c.password_file <;> rfl) ?_
  refine congrArg₂ (· ++ ·) rfl ?_
  refine congrArg₂ (· ++ ·) (by cases c.allow_hosts <;> rfl) ?_
  refine congrArg₂ (· ++ ·) rfl ?_
  refine congrArg₂ (· ++ ·) rfl ?_
  refine congrArg₂ (· ++ ·) rfl ?_
  refine congrArg₂ (· ++ ·) rfl ?_
  refine congrArg₂ (· ++ ·) (by cases c.use_shm <;> rfl) ?_
  refine congrArg₂ (· ++ ·) (by cases c.use_xdamage <;> rfl) ?_
  refine congrArg₂ (· ++ ·) rfl ?_
  refine congrArg₂ (· ++ ·) (by cases c.show_cursor <;> rfl) ?_
  refine congrArg₂ (· ++ ·) (by cases c.accept_bell <;> rfl) ?_
  refine congrArg₂ (· ++ ·) (by cases c.geometry <;> rfl) ?_
  refine congrArg₂ (· ++ ·) (by cases c.clip <;> rfl) rfl

/-- `applyOp` never touches the handle's `saved_state` snapshot: no facade
call between `create` and `destroy` rewrites it. -/
theorem applyOp_saved_state (op : Op) (s : Server) (g : Globals) :
    (applyOp op (s, g)).1.saved_state = s.saved_state := by
  cases op <;>
    simp only [applyOp, x11vnc_server_configure, x11vnc_server_start,
      x11vnc_server_start_configured, x11vnc_server_stop,
      x11vnc_server_update_config, copy_argv] <;>
    (repeat' split) <;> rfl

/-- The snapshot survives an arbitrary list of facade calls. -/
theorem runOps_saved_state (ops : List Op) (s : Server) (g : Globals) :
    (runOps ops (s, g)).1.saved_state = s.saved_state := by
  induction ops generalizing s g with
  | nil => rfl
  | cons op rest ih =>
    have h1 : runOps (op :: rest) (s, g) = runOps rest (applyOp op (s, g)) :=
      rfl
    rcases hp : applyOp op (s, g) with ⟨s1, g1⟩
    have h2 := applyOp_saved_state op s g
    rw [hp] at h2
    rw [h1, hp, ih s1 g1, h2]

/-- C6: for every pre-existing global state and every list of intervening
facade calls (configure / start / start_configured / stop /
update_configuration), `destroy()` restores the four virtualized globals —
connection count, resolved port, active display path, active auth-file
path — to exactly the values they had immediately before `create()`: the
snapshot is captured once at creation, is never rewritten by the intervening
calls, and is applied once at destruction. -/
theorem claim_C6 (g : Globals) (ops : List Op) :
    (x11vnc_server_destroy (runOps ops (x11vnc_server_create g, g)).1
        (runOps ops (x11vnc_server_create g, g)).2).client_count =
      g.client_count ∧
    (x11vnc_server_destroy (runOps ops (x11vnc_server_create g, g)).1
        (runOps ops (x11vnc_server_create g, g)).2).got_rfbport =
      g.got_rfbport ∧
    (x11vnc_server_destroy (runOps ops (x11vnc_server_create g, g)).1
        (runOps ops (x11vnc_server_create g, g)).2).use_dpy = g.use_dpy ∧
    (x11vnc_server_destroy (runOps ops (x11vnc_server_create g, g)).1
        (runOps ops (x11vnc_server_create g, g)).2).auth_file =
      g.auth_file := by
  rcases hp : runOps ops (x11vnc_server_create g, g) with ⟨s1, g1⟩
  have h : s1.saved_state = (x11vnc_server_create g).saved_state := by
    have hr := runOps_saved_state ops (x11vnc_server_create g) g
    rw [hp] at hr
    exact hr
  have hs : (x11vnc_server_stop s1 g1).1.saved_state = s1.saved_state := by
    simp only [x11vnc_server_stop]
    split <;> rfl
  refine ⟨?_, ?_, ?_, ?_⟩ <;>
    simp only [x11vnc_server_destroy, restore_global_state, hs, h,
      x11vnc_server_create, save_global_state]
